import Mathlib

/-!
Shallow embedding of `src/Traffic signal/streamlit_dashbaord.py`.

The program keeps two pieces of session state:
  * `ambulance` — a Python dict holding the latest position
    (initially `{"lat": 12.9716, "lng": 77.5946, "time": None, "speed": None}`);
  * `lights` — a Python dict from intersection name to `"red"`/`"green"`
    (initially all `"red"`).
The MQTT callback `on_message` parses a JSON payload, updates `ambulance`
wholesale with `{"lat": lat, "lng": lng, "time": ts}`, and recomputes every
intersection's light from the haversine distance to the new position; any
exception during parsing aborts the whole update (the `try`/`except` wrapper).

Python floats are modelled as real numbers; Python dicts as association
lists (insertion ordered, unique keys); a JSON payload as `Option JVal`
(`none` = the payload was not valid JSON, so `json.loads` raised).
-/

open Real

namespace Traffic

/-- Python values that can appear in a decoded JSON document (and in the
session-state dicts).  JSON `null` decodes to Python `None`; both are
`jnull` here.  JSON numbers (int or float) are modelled as reals. -/
inductive JVal where
  | jnull
  | jbool (b : Bool)
  | jnum (x : ℝ)
  | jstr (s : String)
  | jarr (elems : List JVal)
  | jobj (fields : List (String × JVal))

/-- Python dict lookup `d.get(k)` / `d[k]`: `none` models a missing key
(`d[k]` would raise `KeyError`). -/
def dget {α : Type} : List (String × α) → String → Option α
  | [], _ => none
  | (k', v) :: rest, k => if k' = k then some v else dget rest k

/-- Python dict assignment `d[k] = v`: replaces the value of an existing
key in place, otherwise appends the new key at the end. -/
def dset {α : Type} : List (String × α) → String → α → List (String × α)
  | [], k, v => [(k, v)]
  | (k', v') :: rest, k, v =>
      if k' = k then (k, v) :: rest else (k', v') :: dset rest k v

/-- Value of a digit string, most significant digit first. -/
def digitsVal (cs : List Char) : ℕ :=
  cs.foldl (fun n c => 10 * n + (c.toNat - 48)) 0

/-- Exponent suffix of Python `float(str)`: `(e|E) [sign] digits` must
consume the rest of the string. -/
noncomputable def pyExp (sgn : ℝ) (ip fp : List Char) (r : List Char) : Option ℝ :=
  let p : Bool × List Char :=
    match r with
    | '-' :: rr => (true, rr)
    | '+' :: rr => (false, rr)
    | _ => (false, r)
  let ed := p.2.takeWhile Char.isDigit
  let rest := p.2.dropWhile Char.isDigit
  if ed.isEmpty || !rest.isEmpty then none
  else
    let mant : ℝ := (digitsVal ip : ℝ) + (digitsVal fp : ℝ) / (10 : ℝ) ^ fp.length
    some (sgn * (if p.1 then mant / (10 : ℝ) ^ digitsVal ed
                 else mant * (10 : ℝ) ^ digitsVal ed))

/-- Python `float(str)` on the decimal grammar
`[spaces] [sign] (digits [. digits] | . digits) [(e|E) [sign] digits] [spaces]`.
(CPython additionally accepts `inf`/`nan` spellings and underscore digit
separators; no claim in this development depends on which strings convert,
only on whether the conversion succeeds or raises.) -/
noncomputable def pyFloatOfString (s : String) : Option ℝ :=
  let cs0 := ((s.data.dropWhile (· == ' ')).reverse.dropWhile (· == ' ')).reverse
  let p : ℝ × List Char :=
    match cs0 with
    | '-' :: r => (-1, r)
    | '+' :: r => (1, r)
    | _ => (1, cs0)
  let ip := p.2.takeWhile Char.isDigit
  let r1 := p.2.dropWhile Char.isDigit
  let q : List Char × List Char :=
    match r1 with
    | '.' :: r => (r.takeWhile Char.isDigit, r.dropWhile Char.isDigit)
    | _ => ([], r1)
  if ip.isEmpty && q.1.isEmpty then none
  else
    match q.2 with
    | [] => some (p.1 * ((digitsVal ip : ℝ) + (digitsVal q.1 : ℝ) / (10 : ℝ) ^ q.1.length))
    | 'e' :: r => pyExp p.1 ip q.1 r
    | 'E' :: r => pyExp p.1 ip q.1 r
    | _ => none

/-- Python `float(v)` applied to a decoded JSON value: numbers convert to
themselves, booleans to 0/1, numeric strings are parsed; `None`, lists and
dicts raise `TypeError` (modelled as `none`). -/
noncomputable def pyFloat : JVal → Option ℝ
  | .jnum x => some x
  | .jbool b => some (if b then 1 else 0)
  | .jstr s => pyFloatOfString s
  | _ => none

/-- `math.radians(x)` — degrees to radians. -/
noncomputable def radians (x : ℝ) : ℝ := x * π / 180

/-- `math.atan2(y, x)` (the C-library two-argument arctangent). -/
noncomputable def atan2 (y x : ℝ) : ℝ :=
  if 0 < x then arctan (y / x)
  else if x < 0 ∧ 0 ≤ y then arctan (y / x) + π
  else if x < 0 ∧ y < 0 then arctan (y / x) - π
  else if x = 0 ∧ 0 < y then π / 2
  else if x = 0 ∧ y < 0 then -(π / 2)
  else 0

/-- The intermediate `a` of the source's `haversine`:
`a = sin(dphi/2)**2 + cos(phi1)*cos(phi2)*sin(dlambda/2)**2` with
`phi1 = radians(lat1)`, `phi2 = radians(lat2)`, `dphi = radians(lat2-lat1)`,
`dlambda = radians(lon2-lon1)`. -/
noncomputable def hav_a (lat1 lon1 lat2 lon2 : ℝ) : ℝ :=
  Real.sin (radians (lat2 - lat1) / 2) ^ 2 +
    Real.cos (radians lat1) * Real.cos (radians lat2) *
      Real.sin (radians (lon2 - lon1) / 2) ^ 2

/-- `haversine(lat1, lon1, lat2, lon2)` from the source: distance in
meters, `R = 6371000`, `c = 2 * atan2(sqrt(a), sqrt(1-a))`, result `R * c`. -/
noncomputable def haversine (lat1 lon1 lat2 lon2 : ℝ) : ℝ :=
  let R : ℝ := 6371000
  let a := hav_a lat1 lon1 lat2 lon2
  let c := 2 * atan2 (Real.sqrt a) (Real.sqrt (1 - a))
  R * c

/-- A fixed signal site from the `INTERSECTIONS` config list. -/
structure Intersection where
  name : String
  lat : ℝ
  lng : ℝ

/-- The `INTERSECTIONS` constant of the source. -/
noncomputable def INTERSECTIONS : List Intersection :=
  [⟨"Intersection A", 12.9716, 77.5946⟩,
   ⟨"Intersection B", 12.9750, 77.5900⟩,
   ⟨"Intersection C", 12.9680, 77.6000⟩]

/-- `GREEN_DISTANCE_METERS = 200.0`. -/
noncomputable def GREEN_DISTANCE_METERS : ℝ := 200.0

/-- The shared session state: the `ambulance` dict and the `lights` dict. -/
structure SysState where
  ambulance : List (String × JVal)
  lights : List (String × String)

/-- The session-state initialization: default Bengaluru position with
`time = None`, `speed = None`, and every intersection's light `"red"`. -/
noncomputable def initState : SysState :=
  { ambulance := [("lat", .jnum 12.9716), ("lng", .jnum 77.5946),
                  ("time", .jnull), ("speed", .jnull)],
    lights := INTERSECTIONS.map (fun it => (it.name, "red")) }

/-- The parsing phase of `on_message` — everything inside the `try` block
that can raise, in the order Python evaluates it.  `none` means some step
raised and the `except` branch swallowed the exception, leaving the state
untouched.  Steps, for `msg` the result of `json.loads` (`Option.none` if
decoding raised):
  * `data.get("lat", ...)` requires `data` to be a dict (else `AttributeError`);
  * the default argument `st.session_state.ambulance["lat"]` is evaluated
    eagerly (`KeyError` if absent);
  * `float(...)` on the chosen value (`ValueError`/`TypeError` if it does
    not convert); then the same for `lng`;
  * `ts = data.get("time", None)`.
On success, returns the `(lat, lng, ts)` triple the update will store. -/
noncomputable def parseUpdate (s : SysState) (msg : Option JVal) :
    Option (ℝ × ℝ × JVal) :=
  match msg with
  | some (.jobj data) =>
    match dget s.ambulance "lat" with
    | some curLat =>
      match pyFloat ((dget data "lat").getD curLat) with
      | some lat =>
        match dget s.ambulance "lng" with
        | some curLng =>
          match pyFloat ((dget data "lng").getD curLng) with
          | some lng => some (lat, lng, (dget data "time").getD .jnull)
          | none => none
        | none => none
      | none => none
    | none => none
  | _ => none

/-- The state-mutation phase of `on_message` once parsing succeeded:
`st.session_state.ambulance = {"lat": lat, "lng": lng, "time": ts}` and the
`for inter in INTERSECTIONS` loop that sets each light to `"green"` when
`haversine(lat, lng, inter["lat"], inter["lng"]) <= GREEN_DISTANCE_METERS`
and `"red"` otherwise. -/
noncomputable def applyUpdate (s : SysState) (lat lng : ℝ) (ts : JVal) : SysState :=
  { ambulance := [("lat", .jnum lat), ("lng", .jnum lng), ("time", ts)],
    lights := INTERSECTIONS.foldl
      (fun L it => dset L it.name
        (if haversine lat lng it.lat it.lng ≤ GREEN_DISTANCE_METERS
         then "green" else "red"))
      s.lights }

/-- The `on_message` callback: parse inside `try`; on any exception the
`except` branch only logs, so the state is returned unchanged; otherwise
apply the update. -/
noncomputable def on_message (s : SysState) (msg : Option JVal) : SysState :=
  match parseUpdate s msg with
  | none => s
  | some (lat, lng, ts) => applyUpdate s lat lng ts

/-- The spec's invariant (§3 SignalState): every registered site's stored
light is `"green"` exactly when the stored position is within
`GREEN_DISTANCE_METERS` of it, and `"red"` otherwise. -/
def Inv (s : SysState) : Prop :=
  ∃ la ln : ℝ,
    dget s.ambulance "lat" = some (.jnum la) ∧
    dget s.ambulance "lng" = some (.jnum ln) ∧
    ∀ it ∈ INTERSECTIONS,
      dget s.lights it.name =
        some (if haversine la ln it.lat it.lng ≤ GREEN_DISTANCE_METERS
              then "green" else "red")

/-- A malformed inbound message in the sense of claim C2: the payload is
not valid JSON, or a present `lat`/`lng` field does not convert with
`float`. -/
def Malformed (msg : Option JVal) : Prop :=
  msg = none ∨
    ∃ data, msg = some (.jobj data) ∧
      ((∃ v, dget data "lat" = some v ∧ pyFloat v = none) ∨
       (∃ v, dget data "lng" = some v ∧ pyFloat v = none))

/-! ### Dictionary lemmas -/

theorem dget_dset_self {α : Type} (l : List (String × α)) (k : String) (v : α) :
    dget (dset l k v) k = some v := by
  induction l with
  | nil => simp [dget, dset]
  | cons p rest ih =>
    obtain ⟨k', v'⟩ := p
    by_cases h : k' = k
    · simp [dset, dget, h]
    · simp [dset, dget, h, ih]

theorem dget_dset_ne {α : Type} (l : List (String × α)) (k k' : String) (v : α)
    (h : k' ≠ k) : dget (dset l k v) k' = dget l k' := by
  induction l with
  | nil => simp [dget, dset, Ne.symm h]
  | cons p rest ih =>
    obtain ⟨k0, v0⟩ := p
    by_cases h0 : k0 = k
    · subst h0; simp [dset, dget, Ne.symm h]
    · simp [dset, dget, h0, ih]

/-! ### Distance-function lemmas -/

theorem atan2_nonneg {y x : ℝ} (hy : 0 ≤ y) (hx : 0 ≤ x) : 0 ≤ atan2 y x := by
  unfold atan2
  split_ifs with h1 h2 h3 h4 h5
  · have := arctan_strictMono.monotone (div_nonneg hy (le_of_lt h1))
    rwa [arctan_zero] at this
  · exact absurd h2.1 (not_lt.mpr hx)
  · exact absurd h3.1 (not_lt.mpr hx)
  · positivity
  · exact absurd h5.2 (not_lt.mpr hy)
  · exact le_refl 0

theorem hav_a_self (lat lon : ℝ) : hav_a lat lon lat lon = 0 := by
  unfold hav_a radians
  simp

theorem haversine_self (lat lon : ℝ) : haversine lat lon lat lon = 0 := by
  show (6371000 : ℝ) *
      (2 * atan2 (Real.sqrt (hav_a lat lon lat lon))
        (Real.sqrt (1 - hav_a lat lon lat lon))) = 0
  rw [hav_a_self, Real.sqrt_zero, sub_zero, Real.sqrt_one]
  unfold atan2
  rw [if_pos one_pos, zero_div, arctan_zero, mul_zero, mul_zero]

theorem hav_a_comm (lat1 lon1 lat2 lon2 : ℝ) :
    hav_a lat1 lon1 lat2 lon2 = hav_a lat2 lon2 lat1 lon1 := by
  unfold hav_a radians
  have e1 : (lat1 - lat2) * π / 180 / 2 = -((lat2 - lat1) * π / 180 / 2) := by ring
  have e2 : (lon1 - lon2) * π / 180 / 2 = -((lon2 - lon1) * π / 180 / 2) := by ring
  rw [e1, e2, Real.sin_neg, Real.sin_neg]
  ring

theorem haversine_comm (lat1 lon1 lat2 lon2 : ℝ) :
    haversine lat1 lon1 lat2 lon2 = haversine lat2 lon2 lat1 lon1 := by
  show (6371000 : ℝ) *
      (2 * atan2 (Real.sqrt (hav_a lat1 lon1 lat2 lon2))
        (Real.sqrt (1 - hav_a lat1 lon1 lat2 lon2))) =
    (6371000 : ℝ) *
      (2 * atan2 (Real.sqrt (hav_a lat2 lon2 lat1 lon1))
        (Real.sqrt (1 - hav_a lat2 lon2 lat1 lon1)))
  rw [hav_a_comm lat1 lon1 lat2 lon2]

/-! ### Update lemmas -/

theorem lights_applyUpdate (s : SysState) (la ln : ℝ) (ts : JVal)
    (it : Intersection) (hit : it ∈ INTERSECTIONS) :
    dget (applyUpdate s la ln ts).lights it.name =
      some (if haversine la ln it.lat it.lng ≤ GREEN_DISTANCE_METERS
            then "green" else "red") := by
  simp only [INTERSECTIONS] at hit
  fin_cases hit
  · simp only [applyUpdate, INTERSECTIONS, List.foldl]
    rw [dget_dset_ne _ _ _ _ (by decide), dget_dset_ne _ _ _ _ (by decide),
      dget_dset_self]
  · simp only [applyUpdate, INTERSECTIONS, List.foldl]
    rw [dget_dset_ne _ _ _ _ (by decide), dget_dset_self]
  · simp only [applyUpdate, INTERSECTIONS, List.foldl]
    rw [dget_dset_self]

theorem Inv_applyUpdate (s : SysState) (la ln : ℝ) (ts : JVal) :
    Inv (applyUpdate s la ln ts) :=
  ⟨la, ln, rfl, rfl, fun it hit => lights_applyUpdate s la ln ts it hit⟩

theorem parseUpdate_malformed (s : SysState) (msg : Option JVal)
    (h : Malformed msg) : parseUpdate s msg = none := by
  rcases h with rfl | ⟨data, rfl, h⟩
  · rfl
  · unfold parseUpdate
    rcases h1 : dget s.ambulance "lat" with _ | curLat
    · rfl
    · rcases h with ⟨v, hv, hpv⟩ | ⟨v, hv, hpv⟩
      · simp [hv, hpv]
      · rcases h2 : pyFloat ((dget data "lat").getD curLat) with _ | lat
        · simp [h2]
        · rcases h3 : dget s.ambulance "lng" with _ | curLng
          · simp [h2, h3]
          · simp [h2, h3, hv, hpv]

/-- Characterization of a successful parse: the payload was a JSON object,
the stored dict had both coordinate keys, both chosen coordinate values
converted with `float`, and the timestamp is the `"time"` field with
default `None`. -/
theorem parseUpdate_some (s : SysState) (msg : Option JVal) (la ln : ℝ)
    (ts : JVal) (hp : parseUpdate s msg = some (la, ln, ts)) :
    ∃ data, msg = some (.jobj data) ∧ ts = (dget data "time").getD .jnull ∧
      ∃ curLat curLng,
        dget s.ambulance "lat" = some curLat ∧
        dget s.ambulance "lng" = some curLng ∧
        pyFloat ((dget data "lat").getD curLat) = some la ∧
        pyFloat ((dget data "lng").getD curLng) = some ln := by
  unfold parseUpdate at hp
  split at hp
  next _x data =>
    refine ⟨data, rfl, ?_⟩
    split at hp
    next curLat h1 =>
      split at hp
      next lat h2 =>
        split at hp
        next curLng h3 =>
          split at hp
          next lng h4 =>
            simp only [Option.some.injEq, Prod.mk.injEq] at hp
            obtain ⟨rfl, rfl, rfl⟩ := hp
            exact ⟨rfl, curLat, curLng, h1, h3, h2, h4⟩
          next h4 => exact Option.noConfusion hp
        next h3 => exact Option.noConfusion hp
      next h2 => exact Option.noConfusion hp
    next h1 => exact Option.noConfusion hp
  next => exact Option.noConfusion hp

theorem on_message_of_parse (s : SysState) (msg : Option JVal) (la ln : ℝ)
    (ts : JVal) (hp : parseUpdate s msg = some (la, ln, ts)) :
    on_message s msg = applyUpdate s la ln ts := by
  unfold on_message
  rw [hp]

/-! ### Claims -/

/-- C1 (amended): the invariant — every registered site's light is
`"green"` iff the stored position is within 200.0 m of it, `"red"`
otherwise — holds after every processed message, provided it already held
before the message or the message was successfully applied.  It does NOT
hold in the initial state (see the counterexample), which is the only
correction to the claim. -/
theorem C1_invariant_after_update (s : SysState) (msg : Option JVal)
    (h : Inv s ∨ (parseUpdate s msg).isSome = true) :
    Inv (on_message s msg) := by
  rcases hp : parseUpdate s msg with _ | ⟨la, ln, ts⟩
  · rcases h with hInv | hs
    · unfold on_message
      rw [hp]
      exact hInv
    · rw [hp] at hs
      exact absurd hs (by decide)
  · rw [on_message_of_parse s msg la ln ts hp]
    exact Inv_applyUpdate s la ln ts

theorem C1_witness :
    (parseUpdate initState (some (.jobj []))).isSome = true ∧
    Inv (on_message initState (some (.jobj []))) :=
  ⟨rfl, C1_invariant_after_update initState (some (.jobj [])) (Or.inr rfl)⟩

/-- C2: a malformed inbound message — payload not valid JSON, or a present
`lat`/`lng` field that does not convert with `float` — leaves the whole
state (position record and every light) unchanged; the exception is caught,
and no coordinate is applied in isolation. -/
theorem C2_malformed_drops_update (s : SysState) (msg : Option JVal)
    (h : Malformed msg) : on_message s msg = s := by
  unfold on_message
  rw [parseUpdate_malformed s msg h]

theorem C2_witness :
    Malformed (some (.jobj [("lat", .jarr [])])) ∧
    on_message initState (some (.jobj [("lat", .jarr [])])) = initState :=
  ⟨Or.inr ⟨_, rfl, Or.inl ⟨_, rfl, rfl⟩⟩,
   C2_malformed_drops_update initState _
     (Or.inr ⟨_, rfl, Or.inl ⟨_, rfl, rfl⟩⟩)⟩

/-- C6: the distance from any coordinate pair to itself is exactly 0. -/
theorem C6_distance_self_zero (lat lon : ℝ) : haversine lat lon lat lon = 0 :=
  haversine_self lat lon

/-- C7: the distance function is symmetric in its two coordinate pairs. -/
theorem C7_distance_symm (lat1 lon1 lat2 lon2 : ℝ) :
    haversine lat1 lon1 lat2 lon2 = haversine lat2 lon2 lat1 lon1 :=
  haversine_comm lat1 lon1 lat2 lon2

/-- C8: immediately after any successful processing of a message that
stores coordinates `(la, ln)`, the position record holds exactly those
coordinates and every registered intersection's light is `"green"` iff its
haversine distance from `(la, ln)` is at most 200.0 m, `"red"` otherwise —
no site omitted. -/
theorem C8_update_restores_consistency (s : SysState) (msg : Option JVal)
    (la ln : ℝ) (ts : JVal) (hp : parseUpdate s msg = some (la, ln, ts))
    (it : Intersection) (hit : it ∈ INTERSECTIONS) :
    dget (on_message s msg).ambulance "lat" = some (.jnum la) ∧
    dget (on_message s msg).ambulance "lng" = some (.jnum ln) ∧
    dget (on_message s msg).lights it.name =
      some (if haversine la ln it.lat it.lng ≤ GREEN_DISTANCE_METERS
            then "green" else "red") := by
  rw [on_message_of_parse s msg la ln ts hp]
  exact ⟨rfl, rfl, lights_applyUpdate s la ln ts it hit⟩

theorem C8_witness :
    parseUpdate initState
        (some (.jobj [("lat", .jnum 13), ("lng", .jnum 77)])) =
      some (13, 77, .jnull) ∧
    (dget (on_message initState
        (some (.jobj [("lat", .jnum 13), ("lng", .jnum 77)]))).ambulance "lat" =
      some (.jnum 13) ∧
     dget (on_message initState
        (some (.jobj [("lat", .jnum 13), ("lng", .jnum 77)]))).ambulance "lng" =
      some (.jnum 77) ∧
     dget (on_message initState
        (some (.jobj [("lat", .jnum 13), ("lng", .jnum 77)]))).lights
        "Intersection A" =
      some (if haversine 13 77 12.9716 77.5946 ≤ GREEN_DISTANCE_METERS
            then "green" else "red")) :=
  ⟨rfl, C8_update_restores_consistency initState
    (some (.jobj [("lat", .jnum 13), ("lng", .jnum 77)])) 13 77 .jnull rfl
    ⟨"Intersection A", 12.9716, 77.5946⟩ (by simp [INTERSECTIONS])⟩

/-- C3: for every processed position and registered site, the light is
`"green"` exactly when the computed distance is ≤ the threshold (inclusive
boundary), and `"red"` exactly when it is strictly greater. -/
theorem C3_threshold_inclusive (s : SysState) (msg : Option JVal)
    (la ln : ℝ) (ts : JVal) (hp : parseUpdate s msg = some (la, ln, ts))
    (it : Intersection) (hit : it ∈ INTERSECTIONS) :
    (dget (on_message s msg).lights it.name = some "green" ↔
      haversine la ln it.lat it.lng ≤ GREEN_DISTANCE_METERS) ∧
    (dget (on_message s msg).lights it.name = some "red" ↔
      GREEN_DISTANCE_METERS < haversine la ln it.lat it.lng) := by
  rw [on_message_of_parse s msg la ln ts hp,
    lights_applyUpdate s la ln ts it hit]
  by_cases h : haversine la ln it.lat it.lng ≤ GREEN_DISTANCE_METERS
  · rw [if_pos h]
    constructor
    · simp [h]
    · constructor
      · intro he
        exact absurd (Option.some.inj he) (by decide)
      · intro hlt
        exact absurd h (not_le.mpr hlt)
  · rw [if_neg h]
    constructor
    · constructor
      · intro he
        exact absurd (Option.some.inj he) (by decide)
      · intro hle
        exact absurd hle h
    · simp [not_le.mp h]

theorem C3_witness :
    parseUpdate initState
        (some (.jobj [("lat", .jnum 0), ("lng", .jnum 0)])) =
      some (0, 0, .jnull) ∧
    ((dget (on_message initState
        (some (.jobj [("lat", .jnum 0), ("lng", .jnum 0)]))).lights
        "Intersection B" = some "green" ↔
      haversine 0 0 12.9750 77.5900 ≤ GREEN_DISTANCE_METERS) ∧
     (dget (on_message initState
        (some (.jobj [("lat", .jnum 0), ("lng", .jnum 0)]))).lights
        "Intersection B" = some "red" ↔
      GREEN_DISTANCE_METERS < haversine 0 0 12.9750 77.5900)) :=
  ⟨rfl, C3_threshold_inclusive initState
    (some (.jobj [("lat", .jnum 0), ("lng", .jnum 0)])) 0 0 .jnull rfl
    ⟨"Intersection B", 12.9750, 77.5900⟩ (by simp [INTERSECTIONS])⟩

/-- C1, counterexample: in the initial state the invariant fails —
the default position coincides with Intersection A (distance 0, within the
200 m threshold), yet every light, Intersection A's included, is `"red"`. -/
theorem C1_counterexample :
    ¬ Inv initState ∧
    haversine 12.9716 77.5946 12.9716 77.5946 ≤ GREEN_DISTANCE_METERS ∧
    dget initState.lights "Intersection A" = some "red" := by
  refine ⟨?_, ?_, rfl⟩
  · rintro ⟨la, ln, hla, hln, hall⟩
    have h12 : dget initState.ambulance "lat" = some (.jnum 12.9716) := rfl
    have h77 : dget initState.ambulance "lng" = some (.jnum 77.5946) := rfl
    rw [h12] at hla
    rw [h77] at hln
    have hla' : la = 12.9716 := by
      injection hla with h1
      injection h1 with h2
      exact h2.symm
    have hln' : ln = 77.5946 := by
      injection hln with h1
      injection h1 with h2
      exact h2.symm
    have hA := hall ⟨"Intersection A", 12.9716, 77.5946⟩ (by simp [INTERSECTIONS])
    change dget initState.lights "Intersection A" =
      some (if haversine la ln 12.9716 77.5946 ≤ GREEN_DISTANCE_METERS
            then "green" else "red") at hA
    have hred : dget initState.lights "Intersection A" = some "red" := rfl
    rw [hred, hla', hln'] at hA
    rw [if_pos (by rw [haversine_self]; norm_num [GREEN_DISTANCE_METERS])] at hA
    exact absurd (Option.some.inj hA) (by decide)
  · rw [haversine_self]
    norm_num [GREEN_DISTANCE_METERS]

/-- C4: a valid-JSON message that lacks the `lat` key (or the `lng` key)
and whose present coordinate fields convert stores the previously held
value of the missing coordinate — not a fixed default — together with the
newly supplied value of the other coordinate. -/
theorem C4_missing_coordinate_falls_back (s : SysState)
    (data : List (String × JVal)) (la lb la' lb' : ℝ) (ts : JVal)
    (hla : dget s.ambulance "lat" = some (.jnum la))
    (hlb : dget s.ambulance "lng" = some (.jnum lb))
    (hp : parseUpdate s (some (.jobj data)) = some (la', lb', ts)) :
    (dget data "lat" = none → la' = la) ∧
    (dget data "lng" = none → lb' = lb) ∧
    (on_message s (some (.jobj data))).ambulance =
      [("lat", .jnum la'), ("lng", .jnum lb'), ("time", ts)] := by
  obtain ⟨data', hdata, hts, curLat, curLng, h1, h2, h3, h4⟩ :=
    parseUpdate_some s _ la' lb' ts hp
  have hdd : data' = data := by
    injection hdata with h
    injection h with h'
    exact h'.symm
  subst hdd
  have hcl : curLat = .jnum la := (Option.some.inj (hla.symm.trans h1)).symm
  have hcg : curLng = .jnum lb := (Option.some.inj (hlb.symm.trans h2)).symm
  refine ⟨?_, ?_, ?_⟩
  · intro hm
    rw [hm, hcl] at h3
    simp [pyFloat] at h3
    exact h3.symm
  · intro hm
    rw [hm, hcg] at h4
    simp [pyFloat] at h4
    exact h4.symm
  · rw [on_message_of_parse s _ la' lb' ts hp]
    rfl

theorem C4_witness :
    dget initState.ambulance "lat" = some (.jnum 12.9716) ∧
    dget initState.ambulance "lng" = some (.jnum 77.5946) ∧
    parseUpdate initState (some (.jobj [("lng", .jnum 80)])) =
      some (12.9716, 80, .jnull) ∧
    ((dget [("lng", JVal.jnum 80)] "lat" = none → (12.9716 : ℝ) = 12.9716) ∧
     (dget [("lng", JVal.jnum 80)] "lng" = none → (80 : ℝ) = 77.5946) ∧
     (on_message initState (some (.jobj [("lng", .jnum 80)]))).ambulance =
       [("lat", .jnum 12.9716), ("lng", .jnum 80), ("time", .jnull)]) :=
  ⟨rfl, rfl, rfl,
   C4_missing_coordinate_falls_back initState [("lng", .jnum 80)]
     12.9716 77.5946 12.9716 80 .jnull rfl rfl rfl⟩

/-- C9: when a successfully processed message lacks the `time` key, the
stored timestamp is `None` — unlike `lat`/`lng`, the previously held
timestamp is never retained. -/
theorem C9_missing_time_stored_none (s : SysState)
    (data : List (String × JVal)) (la ln : ℝ) (ts : JVal)
    (hp : parseUpdate s (some (.jobj data)) = some (la, ln, ts))
    (hmiss : dget data "time" = none) :
    ts = .jnull ∧
    dget (on_message s (some (.jobj data))).ambulance "time" = some .jnull := by
  obtain ⟨data', hdata, hts, -⟩ := parseUpdate_some s _ la ln ts hp
  have hdd : data' = data := by
    injection hdata with h
    injection h with h'
    exact h'.symm
  subst hdd
  rw [hmiss] at hts
  have hts' : ts = .jnull := hts
  refine ⟨hts', ?_⟩
  rw [on_message_of_parse s _ la ln ts hp, hts']
  rfl

theorem C9_witness :
    parseUpdate initState
        (some (.jobj [("lat", .jnum 1), ("lng", .jnum 2)])) =
      some (1, 2, .jnull) ∧
    dget [("lat", JVal.jnum 1), ("lng", JVal.jnum 2)] "time" = none ∧
    ((.jnull : JVal) = .jnull ∧
     dget (on_message initState
        (some (.jobj [("lat", .jnum 1), ("lng", .jnum 2)]))).ambulance
        "time" = some .jnull) :=
  ⟨rfl, rfl,
   C9_missing_time_stored_none initState [("lat", .jnum 1), ("lng", .jnum 2)]
     1 2 .jnull rfl rfl⟩

/-- C10: each message either leaves the state untouched (a dropped update)
or replaces the position record wholesale with exactly the keys
`lat`, `lng`, `time`; the `speed` key of the initial default record (where
it is present with value `None`) is therefore absent after any successful
update and can never reappear. -/
theorem C10_wholesale_replacement :
    dget initState.ambulance "speed" = some .jnull ∧
    ∀ (s : SysState) (msg : Option JVal),
      on_message s msg = s ∨
        ((on_message s msg).ambulance.map Prod.fst = ["lat", "lng", "time"] ∧
         dget (on_message s msg).ambulance "speed" = none) := by
  refine ⟨rfl, fun s msg => ?_⟩
  rcases hp : parseUpdate s msg with _ | ⟨la, ln, ts⟩
  · left
    unfold on_message
    rw [hp]
  · right
    rw [on_message_of_parse s msg la ln ts hp]
    exact ⟨rfl, rfl⟩

/-! ### Numeric stability of the distance function (C5) -/

theorem cos_radians_nonneg {lat : ℝ} (h1 : -90 ≤ lat) (h2 : lat ≤ 90) :
    0 ≤ Real.cos (radians lat) := by
  have hπ := Real.pi_pos
  apply Real.cos_nonneg_of_mem_Icc
  constructor
  · unfold radians
    nlinarith [mul_nonneg (by linarith : (0:ℝ) ≤ lat + 90) (le_of_lt hπ)]
  · unfold radians
    nlinarith [mul_nonneg (by linarith : (0:ℝ) ≤ 90 - lat) (le_of_lt hπ)]

theorem sin_sq_half_eq (x : ℝ) :
    Real.sin (x / 2) ^ 2 = 1 / 2 - Real.cos x / 2 := by
  have h := Real.sin_sq (x / 2)
  have h2 := Real.cos_sq (x / 2)
  rw [h2, show 2 * (x / 2) = x by ring] at h
  rw [h]
  ring

theorem hav_a_nonneg (lat1 lon1 lat2 lon2 : ℝ)
    (h1 : -90 ≤ lat1) (h2 : lat1 ≤ 90) (h3 : -90 ≤ lat2) (h4 : lat2 ≤ 90) :
    0 ≤ hav_a lat1 lon1 lat2 lon2 := by
  unfold hav_a
  have hc1 := cos_radians_nonneg h1 h2
  have hc2 := cos_radians_nonneg h3 h4
  have hs1 := sq_nonneg (Real.sin (radians (lat2 - lat1) / 2))
  have hs2 := sq_nonneg (Real.sin (radians (lon2 - lon1) / 2))
  nlinarith [mul_nonneg (mul_nonneg hc1 hc2) hs2]

theorem hav_a_le_one (lat1 lon1 lat2 lon2 : ℝ)
    (h1 : -90 ≤ lat1) (h2 : lat1 ≤ 90) (h3 : -90 ≤ lat2) (h4 : lat2 ≤ 90) :
    hav_a lat1 lon1 lat2 lon2 ≤ 1 := by
  unfold hav_a
  have hc1 := cos_radians_nonneg h1 h2
  have hc2 := cos_radians_nonneg h3 h4
  have hs : Real.sin (radians (lon2 - lon1) / 2) ^ 2 ≤ 1 :=
    Real.sin_sq_le_one _
  have hprod : Real.cos (radians lat1) * Real.cos (radians lat2) *
      Real.sin (radians (lon2 - lon1) / 2) ^ 2 ≤
      Real.cos (radians lat1) * Real.cos (radians lat2) :=
    mul_le_of_le_one_right (mul_nonneg hc1 hc2) hs
  have hhalf : Real.sin (radians (lat2 - lat1) / 2) ^ 2 =
      1 / 2 - Real.cos (radians (lat2 - lat1)) / 2 := sin_sq_half_eq _
  have hd : radians (lat2 - lat1) = radians lat2 - radians lat1 := by
    unfold radians
    ring
  have hcos_sub : Real.cos (radians lat2 - radians lat1) =
      Real.cos (radians lat2) * Real.cos (radians lat1) +
      Real.sin (radians lat2) * Real.sin (radians lat1) := Real.cos_sub _ _
  have hcos_add : Real.cos (radians lat2 + radians lat1) =
      Real.cos (radians lat2) * Real.cos (radians lat1) -
      Real.sin (radians lat2) * Real.sin (radians lat1) := Real.cos_add _ _
  have hone : Real.cos (radians lat2 + radians lat1) ≤ 1 := Real.cos_le_one _
  rw [hhalf, hd, hcos_sub]
  nlinarith [hprod, hone, hcos_add]

theorem haversine_nonneg (lat1 lon1 lat2 lon2 : ℝ) :
    0 ≤ haversine lat1 lon1 lat2 lon2 := by
  show 0 ≤ (6371000 : ℝ) *
      (2 * atan2 (Real.sqrt (hav_a lat1 lon1 lat2 lon2))
        (Real.sqrt (1 - hav_a lat1 lon1 lat2 lon2)))
  have h := atan2_nonneg (Real.sqrt_nonneg (hav_a lat1 lon1 lat2 lon2))
    (Real.sqrt_nonneg (1 - hav_a lat1 lon1 lat2 lon2))
  nlinarith [h]

/-- C5: for coordinates in the valid ranges, the distance computation is
total and numerically safe — the intermediate `a` lies in `[0, 1]`, so both
square-root arguments (`a` and `1 - a`) are nonnegative (no domain error,
the float analogue of a NaN), there is no division, and the result is a
well-defined nonnegative real. -/
theorem C5_distance_total_in_range (lat1 lon1 lat2 lon2 : ℝ)
    (h1 : -90 ≤ lat1) (h2 : lat1 ≤ 90) (h3 : -90 ≤ lat2) (h4 : lat2 ≤ 90)
    (h5 : -180 ≤ lon1) (h6 : lon1 ≤ 180) (h7 : -180 ≤ lon2) (h8 : lon2 ≤ 180) :
    0 ≤ hav_a lat1 lon1 lat2 lon2 ∧ hav_a lat1 lon1 lat2 lon2 ≤ 1 ∧
    0 ≤ 1 - hav_a lat1 lon1 lat2 lon2 ∧ 0 ≤ haversine lat1 lon1 lat2 lon2 :=
  ⟨hav_a_nonneg lat1 lon1 lat2 lon2 h1 h2 h3 h4,
   hav_a_le_one lat1 lon1 lat2 lon2 h1 h2 h3 h4,
   by linarith [hav_a_le_one lat1 lon1 lat2 lon2 h1 h2 h3 h4],
   haversine_nonneg lat1 lon1 lat2 lon2⟩

theorem C5_witness :
    ((-90 : ℝ) ≤ 10 ∧ (10 : ℝ) ≤ 90 ∧ (-90 : ℝ) ≤ -20 ∧ (-20 : ℝ) ≤ 90 ∧
     (-180 : ℝ) ≤ 30 ∧ (30 : ℝ) ≤ 180 ∧ (-180 : ℝ) ≤ -40 ∧ (-40 : ℝ) ≤ 180) ∧
    (0 ≤ hav_a 10 30 (-20) (-40) ∧ hav_a 10 30 (-20) (-40) ≤ 1 ∧
     0 ≤ 1 - hav_a 10 30 (-20) (-40) ∧ 0 ≤ haversine 10 30 (-20) (-40)) :=
  ⟨by norm_num,
   C5_distance_total_in_range 10 30 (-20) (-40) (by norm_num) (by norm_num)
     (by norm_num) (by norm_num) (by norm_num) (by norm_num) (by norm_num)
     (by norm_num)⟩

end Traffic
